import Mathlib

/-!
Shallow embedding of the `logic-optimizer` circuit core
(`src/components/mod.rs` and `src/components/stringify.rs`).

A circuit is a directed multigraph of typed components. Nodes are stored
in insertion order (petgraph assigns ascending `NodeIndex`es, never
reused), so a `Circuit` is a list of node payloads together with a list
of directed edges between node indices. `validate` scans the nodes once,
checking name uniqueness and per-kind arity rules, accumulating every
violation.

The `usize -> isize` conversion inside `validate_component_connections`
is performed with `try_into().unwrap()`, which panics when the edge
count exceeds `isize::MAX`; we model that panic branch with `Option`
(`none` = panic).
-/

/-- Mirrors `ConnectionDirection` in `mod.rs`. -/
inductive ConnectionDirection where
  | Input
  | Output
deriving DecidableEq, Repr

/-- Mirrors `ComponentKind` in `mod.rs`. -/
inductive ComponentKind where
  | Input
  | Output
  | Not
  | And
  | Or
deriving DecidableEq, Repr

/-- Mirrors `ComponentKind::required_inputs`; Rust's `std::cmp::Ordering`
is Lean's `Ordering` (`Less ↦ lt`, `Equal ↦ eq`, `Greater ↦ gt`). -/
def ComponentKind.required_inputs : ComponentKind → Ordering × Int
  | ComponentKind.Input => (Ordering.eq, 0)
  | ComponentKind.Output => (Ordering.lt, 2)
  | ComponentKind.Not => (Ordering.eq, 1)
  | ComponentKind.And => (Ordering.gt, 1)
  | ComponentKind.Or => (Ordering.gt, 1)

/-- Mirrors `ComponentKind::required_outputs`. -/
def ComponentKind.required_outputs : ComponentKind → Ordering × Int
  | ComponentKind.Input => (Ordering.gt, -1)
  | ComponentKind.Output => (Ordering.eq, 0)
  | ComponentKind.Not => (Ordering.eq, 1)
  | ComponentKind.And => (Ordering.gt, 1)
  | ComponentKind.Or => (Ordering.gt, 1)

/-- Mirrors `ComponentKind::required_connections`. -/
def ComponentKind.required_connections (k : ComponentKind) :
    ConnectionDirection → Ordering × Int
  | ConnectionDirection.Input => k.required_inputs
  | ConnectionDirection.Output => k.required_outputs

/-- Mirrors `ComponentData` in `mod.rs`. -/
structure ComponentData where
  kind : ComponentKind
  name : String
deriving DecidableEq, Repr

/-- Mirrors `Component` (a handle wrapping a petgraph `NodeIndex`). -/
structure Component where
  index : Nat
deriving DecidableEq, Repr

/-- Mirrors `Circuit`: a directed multigraph. `nodes` is the node arena in
insertion order (the node at position `i` has `NodeIndex` `i`); `edges`
is the edge list in insertion order, each edge a (source, target) pair
of node indices. Payload on edges is `()` so we omit it. -/
structure Circuit where
  nodes : List ComponentData
  edges : List (Nat × Nat)
deriving DecidableEq, Repr

/-- Mirrors `ValidationErrorKind`. -/
inductive ValidationErrorKind where
  | IncorrectInputs
  | IncorrectOutputs
  | DuplicateName
deriving DecidableEq, Repr

/-- Mirrors `ValidationError` (a snapshot of the offending component's
data paired with the error kind). -/
structure ValidationError where
  component : ComponentData
  kind : ValidationErrorKind
deriving DecidableEq, Repr

/-- Mirrors `ValidationError::new(kind, component)`. -/
def ValidationError.new (kind : ValidationErrorKind) (component : ComponentData) :
    ValidationError :=
  { component := component, kind := kind }

/-- Mirrors `Circuit::new`: the empty graph. -/
def Circuit.new : Circuit :=
  { nodes := [], edges := [] }

/-- Mirrors `Circuit::add_component`: appends a node, returns the updated
circuit together with the fresh handle (petgraph's `add_node` returns the
next never-before-issued index). -/
def Circuit.add_component (c : Circuit) (name : String) (kind : ComponentKind) :
    Circuit × Component :=
  ({ c with nodes := c.nodes ++ [{ kind := kind, name := name }] },
   { index := c.nodes.length })

/-- Mirrors `Circuit::add_connection`: appends a directed edge
unconditionally (petgraph's `add_edge` never deduplicates and permits
self-loops). -/
def Circuit.add_connection (c : Circuit) (src : Component) (dst : Component) :
    Circuit :=
  { c with edges := c.edges ++ [(src.index, dst.index)] }

/-- Mirrors `Circuit::count_connections`: the number of edges incident to
`index` in the given direction (`Incoming` = edges whose target is
`index`, `Outgoing` = edges whose source is `index`), counting raw
multiplicity. -/
def Circuit.count_connections (c : Circuit) (index : Nat)
    (direction : ConnectionDirection) : Nat :=
  match direction with
  | ConnectionDirection.Input => (c.edges.filter (fun e => e.2 == index)).length
  | ConnectionDirection.Output => (c.edges.filter (fun e => e.1 == index)).length

/-- `isize::MAX` on a 64-bit target, as a natural number. -/
def isizeMaxNat : Nat := 9223372036854775807

/-- Mirrors `usize::try_into::<isize>()`: succeeds exactly when the value
fits in `isize`; `none` models the `unwrap` panic. -/
def usizeToIsize (n : Nat) : Option Int :=
  if n ≤ isizeMaxNat then some (n : Int) else none

/-- The comparison performed by `validate_component_connections`:
`connections` matched against a rule `(Ordering, threshold)` per the
Rust `match` (`Equal ↦ ==`, `Greater ↦ >`, `Less ↦ <`). -/
def connectionsSatisfy (rule : Ordering × Int) (connections : Int) : Bool :=
  match rule with
  | (Ordering.eq, x) => connections == x
  | (Ordering.gt, x) => decide (x < connections)
  | (Ordering.lt, x) => decide (connections < x)

/-- The `if … { Ok(()) } else { Err(…) }` tail of
`validate_component_connections`, applied to an already-converted
connection count. -/
def checkResult (kind : ComponentKind) (direction : ConnectionDirection)
    (connections : Int) : Except ValidationErrorKind Unit :=
  if connectionsSatisfy (kind.required_connections direction) connections then
    Except.ok ()
  else
    Except.error (match direction with
      | ConnectionDirection.Input => ValidationErrorKind.IncorrectInputs
      | ConnectionDirection.Output => ValidationErrorKind.IncorrectOutputs)

/-- Mirrors `Circuit::validate_component_connections`: convert the edge
count `usize -> isize` (the `none` branch models the `unwrap` panic),
then run the rule comparison. -/
def Circuit.validate_component_connections (c : Circuit) (index : Nat)
    (kind : ComponentKind) (direction : ConnectionDirection) :
    Option (Except ValidationErrorKind Unit) :=
  match usizeToIsize (c.count_connections index direction) with
  | none => none
  | some connections => some (checkResult kind direction connections)

/-- The panic-free value of `validate_component_connections` (the edge
count cast to `isize` exactly, without the fallible conversion); equals
it whenever the conversion succeeds. -/
def Circuit.checkConnections (c : Circuit) (index : Nat)
    (kind : ComponentKind) (direction : ConnectionDirection) :
    Except ValidationErrorKind Unit :=
  checkResult kind direction (c.count_connections index direction : Int)

/-- The loop body state of `Circuit::validate`, unrolled as structural
recursion over the remaining nodes. `i` is the `NodeIndex` of the head
node, `seen` the set of names already inserted into `unique_names`
(modelled as a list queried by membership), `errors` the accumulator.
`none` propagates a panic from `validate_component_connections`. -/
def Circuit.validateAux (c : Circuit) :
    List ComponentData → Nat → List String → List ValidationError →
    Option (List ValidationError)
  | [], _, _, errors => some errors
  | data :: rest, i, seen, errors =>
    let errors1 :=
      if seen.contains data.name then
        errors ++ [ValidationError.new ValidationErrorKind.DuplicateName data]
      else
        errors
    match c.validate_component_connections i data.kind ConnectionDirection.Input with
    | none => none
    | some r1 =>
      let errors2 :=
        match r1 with
        | Except.ok _ => errors1
        | Except.error e => errors1 ++ [ValidationError.new e data]
      match c.validate_component_connections i data.kind ConnectionDirection.Output with
      | none => none
      | some r2 =>
        let errors3 :=
          match r2 with
          | Except.ok _ => errors2
          | Except.error e => errors2 ++ [ValidationError.new e data]
        c.validateAux rest (i + 1) (seen ++ [data.name]) errors3

/-- Mirrors `Circuit::validate`: scan all nodes in insertion order,
accumulate all errors, return `Ok(())` when the list is empty. `none`
models the (claimed-unreachable) panic. -/
def Circuit.validate (c : Circuit) : Option (Except (List ValidationError) Unit) :=
  match c.validateAux c.nodes 0 [] [] with
  | none => none
  | some errors =>
    some (if errors.length = 0 then Except.ok () else Except.error errors)

/-- Spec-side description of the errors `validate` emits for the single
component `data` at index `i` when the set of previously seen names is
`seen`: its `DuplicateName` error (if any), then its `IncorrectInputs`
error (if any), then its `IncorrectOutputs` error (if any). -/
def Circuit.nodeErrors (c : Circuit) (i : Nat) (data : ComponentData)
    (seen : List String) : List ValidationError :=
  (if seen.contains data.name then
    [ValidationError.new ValidationErrorKind.DuplicateName data]
  else [])
  ++ (match c.checkConnections i data.kind ConnectionDirection.Input with
      | Except.ok _ => []
      | Except.error e => [ValidationError.new e data])
  ++ (match c.checkConnections i data.kind ConnectionDirection.Output with
      | Except.ok _ => []
      | Except.error e => [ValidationError.new e data])

/-- Spec-side description of the whole error list: the concatenation, in
component insertion order, of each component's `nodeErrors`, threading
the seen-name set. -/
def Circuit.specErrors (c : Circuit) :
    List ComponentData → Nat → List String → List ValidationError
  | [], _, _ => []
  | data :: rest, i, seen =>
    c.nodeErrors i data seen ++ c.specErrors rest (i + 1) (seen ++ [data.name])

/-- The full error list of a circuit, per the spec-side description. -/
def Circuit.allErrors (c : Circuit) : List ValidationError :=
  c.specErrors c.nodes 0 []

/-- Mirrors `stringify_circuit` in `stringify.rs`. -/
def stringify_circuit (_circuit : Circuit) : Except String String :=
  Except.ok ("This is a potato")

/-- Scenario C of the spec: components `A`, `B` (Input), `AND_1` (And),
`C` (Output); edges `A→AND_1`, `B→AND_1`, `AND_1→C`. -/
def scenarioC : Circuit :=
  let s0 := Circuit.new
  let p1 := s0.add_component ("A") ComponentKind.Input
  let p2 := p1.1.add_component ("B") ComponentKind.Input
  let p3 := p2.1.add_component ("AND_1") ComponentKind.And
  let p4 := p3.1.add_component ("C") ComponentKind.Output
  let s1 := p4.1.add_connection p1.2 p3.2
  let s2 := s1.add_connection p2.2 p3.2
  s2.add_connection p3.2 p4.2

/-- Scenario D of the spec: components `A` (Input), `A` (Output) sharing a
name; edge from the first to the second. -/
def scenarioD : Circuit :=
  let s0 := Circuit.new
  let p1 := s0.add_component ("A") ComponentKind.Input
  let p2 := p1.1.add_component ("A") ComponentKind.Output
  p2.1.add_connection p1.2 p2.2

/-- Scenario E of the spec: components `A` (Output), `B` (Output); edge
`A→B`. -/
def scenarioE : Circuit :=
  let s0 := Circuit.new
  let p1 := s0.add_component ("A") ComponentKind.Output
  let p2 := p1.1.add_component ("B") ComponentKind.Output
  p2.1.add_connection p1.2 p2.2

/-- The `reports_multiple_errors` test circuit: `A`, `B` (Input), `C`,
`D` (Output), `NOT_1` (Not); edges `A→NOT_1`, `B→NOT_1`, `NOT_1→D`,
`NOT_1→C` — a Not gate with two incoming and two outgoing edges. -/
def scenarioNotTwoTwo : Circuit :=
  let s0 := Circuit.new
  let p1 := s0.add_component ("A") ComponentKind.Input
  let p2 := p1.1.add_component ("B") ComponentKind.Input
  let p3 := p2.1.add_component ("C") ComponentKind.Output
  let p4 := p3.1.add_component ("D") ComponentKind.Output
  let p5 := p4.1.add_component ("NOT_1") ComponentKind.Not
  let s1 := p5.1.add_connection p1.2 p5.2
  let s2 := s1.add_connection p2.2 p5.2
  let s3 := s2.add_connection p5.2 p4.2
  s3.add_connection p5.2 p3.2

lemma Circuit.count_connections_le (c : Circuit) (i : Nat)
    (d : ConnectionDirection) : c.count_connections i d ≤ c.edges.length := by
  cases d <;> simp only [Circuit.count_connections] <;>
    exact List.length_filter_le _ _

lemma Circuit.vcc_eq_check (c : Circuit) (h : c.edges.length ≤ isizeMaxNat)
    (i : Nat) (k : ComponentKind) (d : ConnectionDirection) :
    c.validate_component_connections i k d = some (c.checkConnections i k d) := by
  have hle : c.count_connections i d ≤ isizeMaxNat :=
    le_trans (c.count_connections_le i d) h
  unfold Circuit.validate_component_connections Circuit.checkConnections usizeToIsize
  rw [if_pos hle]

lemma Circuit.validateAux_eq_specErrors (c : Circuit)
    (h : c.edges.length ≤ isizeMaxNat) :
    ∀ (l : List ComponentData) (i : Nat) (seen : List String)
      (errors : List ValidationError),
    c.validateAux l i seen errors = some (errors ++ c.specErrors l i seen)
  | [], i, seen, errors => by
    simp [Circuit.validateAux, Circuit.specErrors]
  | data :: rest, i, seen, errors => by
    have ih := c.validateAux_eq_specErrors h rest (i + 1) (seen ++ [data.name])
    simp only [Circuit.validateAux, Circuit.specErrors,
      c.vcc_eq_check h i data.kind ConnectionDirection.Input,
      c.vcc_eq_check h i data.kind ConnectionDirection.Output]
    cases hin : c.checkConnections i data.kind ConnectionDirection.Input <;>
    cases hout : c.checkConnections i data.kind ConnectionDirection.Output <;>
    by_cases hdup : data.name ∈ seen <;>
      simp [Circuit.nodeErrors, hin, hout, hdup, ih, List.append_assoc]

lemma Circuit.checkConnections_input_cases (c : Circuit) (i : Nat)
    (k : ComponentKind) :
    c.checkConnections i k ConnectionDirection.Input = Except.ok () ∨
    c.checkConnections i k ConnectionDirection.Input =
      Except.error ValidationErrorKind.IncorrectInputs := by
  unfold Circuit.checkConnections checkResult
  split
  · exact Or.inl rfl
  · exact Or.inr rfl

lemma Circuit.checkConnections_output_cases (c : Circuit) (i : Nat)
    (k : ComponentKind) :
    c.checkConnections i k ConnectionDirection.Output = Except.ok () ∨
    c.checkConnections i k ConnectionDirection.Output =
      Except.error ValidationErrorKind.IncorrectOutputs := by
  unfold Circuit.checkConnections checkResult
  split
  · exact Or.inl rfl
  · exact Or.inr rfl

lemma Circuit.check_input_in (c : Circuit) (i : Nat) :
    c.checkConnections i ComponentKind.Input ConnectionDirection.Input =
      if c.count_connections i ConnectionDirection.Input = 0 then Except.ok ()
      else Except.error ValidationErrorKind.IncorrectInputs := by
  unfold Circuit.checkConnections checkResult connectionsSatisfy
  by_cases h : c.count_connections i ConnectionDirection.Input = 0 <;>
    simp [ComponentKind.required_connections, ComponentKind.required_inputs, h]

lemma Circuit.check_input_out (c : Circuit) (i : Nat) :
    c.checkConnections i ComponentKind.Input ConnectionDirection.Output =
      Except.ok () := by
  unfold Circuit.checkConnections checkResult connectionsSatisfy
  have h : (-1 : Int) < (c.count_connections i ConnectionDirection.Output : Int) := by
    omega
  simp [ComponentKind.required_connections, ComponentKind.required_outputs, h]

lemma Circuit.check_output_in (c : Circuit) (i : Nat) :
    c.checkConnections i ComponentKind.Output ConnectionDirection.Input =
      if c.count_connections i ConnectionDirection.Input < 2 then Except.ok ()
      else Except.error ValidationErrorKind.IncorrectInputs := by
  unfold Circuit.checkConnections checkResult connectionsSatisfy
  by_cases h : c.count_connections i ConnectionDirection.Input < 2 <;>
    have h2 : ((c.count_connections i ConnectionDirection.Input : Int) < 2) ↔
      (c.count_connections i ConnectionDirection.Input < 2) := by omega
  all_goals
    simp [ComponentKind.required_connections, ComponentKind.required_inputs, h, h2]

lemma Circuit.check_output_out (c : Circuit) (i : Nat) :
    c.checkConnections i ComponentKind.Output ConnectionDirection.Output =
      if c.count_connections i ConnectionDirection.Output = 0 then Except.ok ()
      else Except.error ValidationErrorKind.IncorrectOutputs := by
  unfold Circuit.checkConnections checkResult connectionsSatisfy
  by_cases h : c.count_connections i ConnectionDirection.Output = 0 <;>
    simp [ComponentKind.required_connections, ComponentKind.required_outputs, h]

lemma Circuit.check_not_in (c : Circuit) (i : Nat) :
    c.checkConnections i ComponentKind.Not ConnectionDirection.Input =
      if c.count_connections i ConnectionDirection.Input = 1 then Except.ok ()
      else Except.error ValidationErrorKind.IncorrectInputs := by
  unfold Circuit.checkConnections checkResult connectionsSatisfy
  by_cases h : c.count_connections i ConnectionDirection.Input = 1 <;>
    have h2 : ((c.count_connections i ConnectionDirection.Input : Int) = 1) ↔
      (c.count_connections i ConnectionDirection.Input = 1) := by omega
  all_goals
    simp [ComponentKind.required_connections, ComponentKind.required_inputs, h, h2]

lemma Circuit.check_not_out (c : Circuit) (i : Nat) :
    c.checkConnections i ComponentKind.Not ConnectionDirection.Output =
      if c.count_connections i ConnectionDirection.Output = 1 then Except.ok ()
      else Except.error ValidationErrorKind.IncorrectOutputs := by
  unfold Circuit.checkConnections checkResult connectionsSatisfy
  by_cases h : c.count_connections i ConnectionDirection.Output = 1 <;>
    have h2 : ((c.count_connections i ConnectionDirection.Output : Int) = 1) ↔
      (c.count_connections i ConnectionDirection.Output = 1) := by omega
  all_goals
    simp [ComponentKind.required_connections, ComponentKind.required_outputs, h, h2]

lemma Circuit.check_and_in (c : Circuit) (i : Nat) :
    c.checkConnections i ComponentKind.And ConnectionDirection.Input =
      if 1 < c.count_connections i ConnectionDirection.Input then Except.ok ()
      else Except.error ValidationErrorKind.IncorrectInputs := by
  unfold Circuit.checkConnections checkResult connectionsSatisfy
  by_cases h : 1 < c.count_connections i ConnectionDirection.Input <;>
    have h2 : ((1 : Int) < (c.count_connections i ConnectionDirection.Input : Int)) ↔
      (1 < c.count_connections i ConnectionDirection.Input) := by omega
  all_goals
    simp [ComponentKind.required_connections, ComponentKind.required_inputs, h, h2]

lemma Circuit.check_and_out (c : Circuit) (i : Nat) :
    c.checkConnections i ComponentKind.And ConnectionDirection.Output =
      if 1 < c.count_connections i ConnectionDirection.Output then Except.ok ()
      else Except.error ValidationErrorKind.IncorrectOutputs := by
  unfold Circuit.checkConnections checkResult connectionsSatisfy
  by_cases h : 1 < c.count_connections i ConnectionDirection.Output <;>
    have h2 : ((1 : Int) < (c.count_connections i ConnectionDirection.Output : Int)) ↔
      (1 < c.count_connections i ConnectionDirection.Output) := by omega
  all_goals
    simp [ComponentKind.required_connections, ComponentKind.required_outputs, h, h2]

lemma Circuit.check_or_in (c : Circuit) (i : Nat) :
    c.checkConnections i ComponentKind.Or ConnectionDirection.Input =
      if 1 < c.count_connections i ConnectionDirection.Input then Except.ok ()
      else Except.error ValidationErrorKind.IncorrectInputs := by
  unfold Circuit.checkConnections checkResult connectionsSatisfy
  by_cases h : 1 < c.count_connections i ConnectionDirection.Input <;>
    have h2 : ((1 : Int) < (c.count_connections i ConnectionDirection.Input : Int)) ↔
      (1 < c.count_connections i ConnectionDirection.Input) := by omega
  all_goals
    simp [ComponentKind.required_connections, ComponentKind.required_inputs, h, h2]

lemma Circuit.check_or_out (c : Circuit) (i : Nat) :
    c.checkConnections i ComponentKind.Or ConnectionDirection.Output =
      if 1 < c.count_connections i ConnectionDirection.Output then Except.ok ()
      else Except.error ValidationErrorKind.IncorrectOutputs := by
  unfold Circuit.checkConnections checkResult connectionsSatisfy
  by_cases h : 1 < c.count_connections i ConnectionDirection.Output <;>
    have h2 : ((1 : Int) < (c.count_connections i ConnectionDirection.Output : Int)) ↔
      (1 < c.count_connections i ConnectionDirection.Output) := by omega
  all_goals
    simp [ComponentKind.required_connections, ComponentKind.required_outputs, h, h2]

lemma Circuit.validate_eq_allErrors (c : Circuit)
    (h : c.edges.length ≤ isizeMaxNat) :
    c.validate = some (if c.allErrors.length = 0 then Except.ok ()
      else Except.error c.allErrors) := by
  unfold Circuit.validate Circuit.allErrors
  rw [c.validateAux_eq_specErrors h c.nodes 0 [] []]
  simp

lemma Circuit.dup_in_nodeErrors (c : Circuit) (i : Nat) (data : ComponentData)
    (seen : List String) :
    (ValidationError.new ValidationErrorKind.DuplicateName data ∈
        c.nodeErrors i data seen ↔ data.name ∈ seen) ∧
    (c.nodeErrors i data seen).countP
        (fun e => e.kind == ValidationErrorKind.DuplicateName) =
      (if data.name ∈ seen then 1 else 0) := by
  rcases c.checkConnections_input_cases i data.kind with hin | hin <;>
  rcases c.checkConnections_output_cases i data.kind with hout | hout <;>
  by_cases hdup : data.name ∈ seen <;>
    simp [Circuit.nodeErrors, hin, hout, hdup, ValidationError.new,
      List.countP_cons]

lemma name_mem_take_map_iff (l : List ComponentData) (i : Nat) (s : String) :
    s ∈ (l.take i).map ComponentData.name ↔
      ∃ j, j < i ∧ ∃ d, l.get? j = some d ∧ d.name = s := by
  simp only [List.mem_map]
  constructor
  · rintro ⟨d, hd, rfl⟩
    obtain ⟨j, hj⟩ := List.get_of_mem hd
    refine ⟨j, lt_of_lt_of_le j.isLt (by simpa using List.length_take_le i l), d, ?_, rfl⟩
    have := List.get?_eq_get j.isLt
    rw [hj] at this
    rw [← this, List.get?_take]
    exact lt_of_lt_of_le j.isLt (by simpa using List.length_take_le i l)
  · rintro ⟨j, hji, d, hget, rfl⟩
    refine ⟨d, ?_, rfl⟩
    have : (l.take i).get? j = some d := by
      rw [List.get?_take hji, hget]
    exact List.get?_mem this

/-- C1: the claim says an `And`/`Or` component is error-free iff its
incoming count is ≥ 2 and its outgoing count is ≥ 1, and that Scenario C
validates successfully. The code disagrees: `required_outputs` for
`And`/`Or` is `(Greater, 1)`, so an outgoing count of exactly 1 FAILS the
output rule, and Scenario C is rejected with `IncorrectOutputs` on
`AND_1` — contradicting the source's own `// 1 or more` comments and the
repository's `and_is_constructable`/`or_is_constructable` tests. This
theorem evaluates `validate` at Scenario C and exhibits the `> 1` output
rule of the code for both kinds. -/
theorem and_or_single_output_rejected :
    scenarioC.validate = some (Except.error
      [ValidationError.new ValidationErrorKind.IncorrectOutputs
        { kind := ComponentKind.And, name := "AND_1" }]) ∧
    (∀ (c : Circuit) (i : Nat),
      c.checkConnections i ComponentKind.And ConnectionDirection.Output =
        if 1 < c.count_connections i ConnectionDirection.Output then Except.ok ()
        else Except.error ValidationErrorKind.IncorrectOutputs) ∧
    (∀ (c : Circuit) (i : Nat),
      c.checkConnections i ComponentKind.Or ConnectionDirection.Output =
        if 1 < c.count_connections i ConnectionDirection.Output then Except.ok ()
        else Except.error ValidationErrorKind.IncorrectOutputs) :=
  ⟨rfl, fun c i => c.check_and_out i, fun c i => c.check_or_out i⟩

/-- C2: whenever the circuit's edge count fits in `isize`, `validate`
returns exactly the full error list `allErrors` (success iff it is
empty). `allErrors` is by construction the concatenation, in component
insertion order, of each component's errors in the fixed order
`DuplicateName`, `IncorrectInputs`, `IncorrectOutputs` — so the pass
never short-circuits and the output ordering matches the claim. -/
theorem validate_aggregates_all_errors_in_order (c : Circuit)
    (h : c.edges.length ≤ isizeMaxNat) :
    c.validate = some (if c.allErrors.length = 0 then Except.ok ()
      else Except.error c.allErrors) :=
  c.validate_eq_allErrors h

/-- Witness for C2: the `reports_multiple_errors` circuit satisfies the
edge-count bound and the aggregation equation. -/
theorem validate_aggregates_all_errors_in_order_witness :
    scenarioNotTwoTwo.edges.length ≤ isizeMaxNat ∧
    scenarioNotTwoTwo.validate =
      some (if scenarioNotTwoTwo.allErrors.length = 0 then Except.ok ()
        else Except.error scenarioNotTwoTwo.allErrors) :=
  ⟨by decide, validate_aggregates_all_errors_in_order scenarioNotTwoTwo (by decide)⟩

/-- C3: under the edge-count bound, `validate`'s result is the
concatenation of the per-component error lists, and the component at
index `i` contributes a `DuplicateName` error iff some earlier-inserted
component has a string-equal name (so the first holder of a name is
never flagged), with exactly one such error per later occurrence,
regardless of the kinds involved. -/
theorem duplicate_name_flags_later_occurrences (c : Circuit)
    (h : c.edges.length ≤ isizeMaxNat) :
    c.validate = some (if c.allErrors.length = 0 then Except.ok ()
      else Except.error c.allErrors) ∧
    ∀ i data, c.nodes.get? i = some data →
      ((ValidationError.new ValidationErrorKind.DuplicateName data ∈
          c.nodeErrors i data ((c.nodes.take i).map ComponentData.name) ↔
        ∃ j, j < i ∧ ∃ d2, c.nodes.get? j = some d2 ∧ d2.name = data.name) ∧
      (c.nodeErrors i data ((c.nodes.take i).map ComponentData.name)).countP
          (fun e => e.kind == ValidationErrorKind.DuplicateName) =
        (if data.name ∈ (c.nodes.take i).map ComponentData.name then 1
         else 0)) := by
  refine ⟨c.validate_eq_allErrors h, fun i data _ => ?_⟩
  obtain ⟨hmem, hcount⟩ :=
    c.dup_in_nodeErrors i data ((c.nodes.take i).map ComponentData.name)
  exact ⟨hmem.trans (name_mem_take_map_iff c.nodes i data.name), hcount⟩

/-- Witness for C3: Scenario D (two components both named `A`). -/
theorem duplicate_name_flags_later_occurrences_witness :
    scenarioD.edges.length ≤ isizeMaxNat ∧
    (scenarioD.validate = some (if scenarioD.allErrors.length = 0 then Except.ok ()
      else Except.error scenarioD.allErrors) ∧
    ∀ i data, scenarioD.nodes.get? i = some data →
      ((ValidationError.new ValidationErrorKind.DuplicateName data ∈
          scenarioD.nodeErrors i data
            ((scenarioD.nodes.take i).map ComponentData.name) ↔
        ∃ j, j < i ∧ ∃ d2, scenarioD.nodes.get? j = some d2 ∧
          d2.name = data.name) ∧
      (scenarioD.nodeErrors i data
          ((scenarioD.nodes.take i).map ComponentData.name)).countP
          (fun e => e.kind == ValidationErrorKind.DuplicateName) =
        (if data.name ∈ (scenarioD.nodes.take i).map ComponentData.name then 1
         else 0))) :=
  ⟨by decide, duplicate_name_flags_later_occurrences scenarioD (by decide)⟩

/-- C4: under the edge-count bound, `validate`'s result is the
concatenation of the per-component error lists, and a component of kind
`Input` contributes `IncorrectInputs` iff its incoming-edge count is at
least 1, and never contributes `IncorrectOutputs`, whatever its outgoing
count. -/
theorem input_kind_errors (c : Circuit) (h : c.edges.length ≤ isizeMaxNat) :
    c.validate = some (if c.allErrors.length = 0 then Except.ok ()
      else Except.error c.allErrors) ∧
    ∀ i data seen, data.kind = ComponentKind.Input →
      ((ValidationError.new ValidationErrorKind.IncorrectInputs data ∈
          c.nodeErrors i data seen ↔
        1 ≤ c.count_connections i ConnectionDirection.Input) ∧
      ValidationError.new ValidationErrorKind.IncorrectOutputs data ∉
        c.nodeErrors i data seen) := by
  refine ⟨c.validate_eq_allErrors h, fun i data seen hk => ?_⟩
  unfold Circuit.nodeErrors
  rw [hk, c.check_input_in, c.check_input_out]
  by_cases h0 : c.count_connections i ConnectionDirection.Input = 0 <;>
  by_cases hdup : data.name ∈ seen <;>
    simp [h0, hdup, ValidationError.new, Nat.one_le_iff_ne_zero]

/-- Witness for C4: Scenario C's `A` is an `Input` with no incoming
edge. -/
theorem input_kind_errors_witness :
    scenarioC.edges.length ≤ isizeMaxNat ∧
    (scenarioC.validate = some (if scenarioC.allErrors.length = 0 then Except.ok ()
      else Except.error scenarioC.allErrors) ∧
    ∀ i data seen, data.kind = ComponentKind.Input →
      ((ValidationError.new ValidationErrorKind.IncorrectInputs data ∈
          scenarioC.nodeErrors i data seen ↔
        1 ≤ scenarioC.count_connections i ConnectionDirection.Input) ∧
      ValidationError.new ValidationErrorKind.IncorrectOutputs data ∉
        scenarioC.nodeErrors i data seen)) :=
  ⟨by decide, input_kind_errors scenarioC (by decide)⟩

/-- C5: under the edge-count bound, `validate`'s result is the
concatenation of the per-component error lists; a component of kind
`Output` contributes `IncorrectOutputs` iff its outgoing count is at
least 1 and `IncorrectInputs` iff its incoming count is at least 2; and
in Scenario E the only error is `IncorrectOutputs` on `A`. -/
theorem output_kind_errors (c : Circuit) (h : c.edges.length ≤ isizeMaxNat) :
    (c.validate = some (if c.allErrors.length = 0 then Except.ok ()
      else Except.error c.allErrors) ∧
    ∀ i data seen, data.kind = ComponentKind.Output →
      ((ValidationError.new ValidationErrorKind.IncorrectOutputs data ∈
          c.nodeErrors i data seen ↔
        1 ≤ c.count_connections i ConnectionDirection.Output) ∧
      (ValidationError.new ValidationErrorKind.IncorrectInputs data ∈
          c.nodeErrors i data seen ↔
        2 ≤ c.count_connections i ConnectionDirection.Input))) ∧
    scenarioE.validate = some (Except.error
      [ValidationError.new ValidationErrorKind.IncorrectOutputs
        { kind := ComponentKind.Output, name := "A" }]) := by
  refine ⟨⟨c.validate_eq_allErrors h, fun i data seen hk => ?_⟩, rfl⟩
  unfold Circuit.nodeErrors
  rw [hk, c.check_output_in, c.check_output_out]
  by_cases h0 : c.count_connections i ConnectionDirection.Output = 0 <;>
  by_cases h2 : c.count_connections i ConnectionDirection.Input < 2 <;>
  by_cases hdup : data.name ∈ seen <;>
    simp [h0, h2, hdup, ValidationError.new, Nat.one_le_iff_ne_zero] <;>
    omega

/-- Witness for C5: Scenario E itself. -/
theorem output_kind_errors_witness :
    scenarioE.edges.length ≤ isizeMaxNat ∧
    ((scenarioE.validate = some (if scenarioE.allErrors.length = 0 then Except.ok ()
      else Except.error scenarioE.allErrors) ∧
    ∀ i data seen, data.kind = ComponentKind.Output →
      ((ValidationError.new ValidationErrorKind.IncorrectOutputs data ∈
          scenarioE.nodeErrors i data seen ↔
        1 ≤ scenarioE.count_connections i ConnectionDirection.Output) ∧
      (ValidationError.new ValidationErrorKind.IncorrectInputs data ∈
          scenarioE.nodeErrors i data seen ↔
        2 ≤ scenarioE.count_connections i ConnectionDirection.Input))) ∧
    scenarioE.validate = some (Except.error
      [ValidationError.new ValidationErrorKind.IncorrectOutputs
        { kind := ComponentKind.Output, name := "A" }])) :=
  ⟨by decide, output_kind_errors scenarioE (by decide)⟩

/-- C6: under the edge-count bound, `validate`'s result is the
concatenation of the per-component error lists; a component of kind
`Not` contributes `IncorrectInputs` iff its incoming count differs from
1 and `IncorrectOutputs` iff its outgoing count differs from 1 (each
direction flagged independently), hence no arity error iff both counts
equal 1; and the `Not` gate with two incoming and two outgoing edges
yields both errors in one `validate` result. -/
theorem not_kind_errors (c : Circuit) (h : c.edges.length ≤ isizeMaxNat) :
    (c.validate = some (if c.allErrors.length = 0 then Except.ok ()
      else Except.error c.allErrors) ∧
    ∀ i data seen, data.kind = ComponentKind.Not →
      ((ValidationError.new ValidationErrorKind.IncorrectInputs data ∈
          c.nodeErrors i data seen ↔
        c.count_connections i ConnectionDirection.Input ≠ 1) ∧
      (ValidationError.new ValidationErrorKind.IncorrectOutputs data ∈
          c.nodeErrors i data seen ↔
        c.count_connections i ConnectionDirection.Output ≠ 1) ∧
      ((ValidationError.new ValidationErrorKind.IncorrectInputs data ∉
          c.nodeErrors i data seen ∧
        ValidationError.new ValidationErrorKind.IncorrectOutputs data ∉
          c.nodeErrors i data seen) ↔
        (c.count_connections i ConnectionDirection.Input = 1 ∧
        c.count_connections i ConnectionDirection.Output = 1)))) ∧
    scenarioNotTwoTwo.validate = some (Except.error
      [ValidationError.new ValidationErrorKind.IncorrectInputs
        { kind := ComponentKind.Not, name := "NOT_1" },
       ValidationError.new ValidationErrorKind.IncorrectOutputs
        { kind := ComponentKind.Not, name := "NOT_1" }]) := by
  refine ⟨⟨c.validate_eq_allErrors h, fun i data seen hk => ?_⟩, rfl⟩
  unfold Circuit.nodeErrors
  rw [hk, c.check_not_in, c.check_not_out]
  by_cases h1 : c.count_connections i ConnectionDirection.Input = 1 <;>
  by_cases h2 : c.count_connections i ConnectionDirection.Output = 1 <;>
  by_cases hdup : data.name ∈ seen <;>
    simp [h1, h2, hdup, ValidationError.new]

/-- Witness for C6: the two-in/two-out `Not` circuit. -/
theorem not_kind_errors_witness :
    scenarioNotTwoTwo.edges.length ≤ isizeMaxNat ∧
    ((scenarioNotTwoTwo.validate =
      some (if scenarioNotTwoTwo.allErrors.length = 0 then Except.ok ()
        else Except.error scenarioNotTwoTwo.allErrors) ∧
    ∀ i data seen, data.kind = ComponentKind.Not →
      ((ValidationError.new ValidationErrorKind.IncorrectInputs data ∈
          scenarioNotTwoTwo.nodeErrors i data seen ↔
        scenarioNotTwoTwo.count_connections i ConnectionDirection.Input ≠ 1) ∧
      (ValidationError.new ValidationErrorKind.IncorrectOutputs data ∈
          scenarioNotTwoTwo.nodeErrors i data seen ↔
        scenarioNotTwoTwo.count_connections i ConnectionDirection.Output ≠ 1) ∧
      ((ValidationError.new ValidationErrorKind.IncorrectInputs data ∉
          scenarioNotTwoTwo.nodeErrors i data seen ∧
        ValidationError.new ValidationErrorKind.IncorrectOutputs data ∉
          scenarioNotTwoTwo.nodeErrors i data seen) ↔
        (scenarioNotTwoTwo.count_connections i ConnectionDirection.Input = 1 ∧
        scenarioNotTwoTwo.count_connections i ConnectionDirection.Output = 1)))) ∧
    scenarioNotTwoTwo.validate = some (Except.error
      [ValidationError.new ValidationErrorKind.IncorrectInputs
        { kind := ComponentKind.Not, name := "NOT_1" },
       ValidationError.new ValidationErrorKind.IncorrectOutputs
        { kind := ComponentKind.Not, name := "NOT_1" }])) :=
  ⟨by decide, not_kind_errors scenarioNotTwoTwo (by decide)⟩

/-- C7: `validate` on a freshly created empty circuit returns success. -/
theorem validate_empty_circuit_ok :
    Circuit.new.validate = some (Except.ok ()) := rfl

/-- C8: `count_connections` returns the raw number of edges incident to
the handle in the given direction (incoming = edges whose target is the
handle, outgoing = edges whose source is the handle), counting every
parallel edge separately; `add_connection` appends unconditionally
(never deduplicates), so each insertion raises the target's incoming
count and the source's outgoing count by exactly one, and a self-loop
counts once as incoming and once as outgoing. -/
theorem count_connections_raw_multiplicity (c : Circuit) (a b : Component)
    (i : Nat) :
    ((c.add_connection a b).edges = c.edges ++ [(a.index, b.index)]) ∧
    (c.count_connections i ConnectionDirection.Input =
      c.edges.countP (fun e => e.2 == i)) ∧
    (c.count_connections i ConnectionDirection.Output =
      c.edges.countP (fun e => e.1 == i)) ∧
    ((c.add_connection a b).count_connections b.index ConnectionDirection.Input =
      c.count_connections b.index ConnectionDirection.Input + 1) ∧
    ((c.add_connection a b).count_connections a.index ConnectionDirection.Output =
      c.count_connections a.index ConnectionDirection.Output + 1) ∧
    ((c.add_connection a a).count_connections a.index ConnectionDirection.Input =
      c.count_connections a.index ConnectionDirection.Input + 1) ∧
    ((c.add_connection a a).count_connections a.index ConnectionDirection.Output =
      c.count_connections a.index ConnectionDirection.Output + 1) := by
  refine ⟨rfl, ?_, ?_, ?_, ?_, ?_, ?_⟩ <;>
    simp [Circuit.add_connection, Circuit.count_connections,
      List.countP_eq_length_filter, List.filter_append]

/-- C9: for every circuit whose edge count fits in `isize`, the
`usize -> isize` conversion of every connection count succeeds (the
`unwrap` panic branch is unreachable), and `validate` terminates with a
result — `Ok(())` or the error list — never a panic. -/
theorem validate_never_panics (c : Circuit)
    (h : c.edges.length ≤ isizeMaxNat) :
    (∀ i d, usizeToIsize (c.count_connections i d) =
      some ((c.count_connections i d : Int))) ∧
    ∃ r, c.validate = some r := by
  constructor
  · intro i d
    unfold usizeToIsize
    rw [if_pos (le_trans (c.count_connections_le i d) h)]
  · exact ⟨_, c.validate_eq_allErrors h⟩

/-- Witness for C9: the Scenario C circuit. -/
theorem validate_never_panics_witness :
    scenarioC.edges.length ≤ isizeMaxNat ∧
    ((∀ i d, usizeToIsize (scenarioC.count_connections i d) =
      some ((scenarioC.count_connections i d : Int))) ∧
    ∃ r, scenarioC.validate = some r) :=
  ⟨by decide, validate_never_panics scenarioC (by decide)⟩

/-- C10: `stringify_circuit` returns `Ok("This is a potato")` for every
circuit, never returns `Err`, and never produces the canonical
boolean-expression renderings the repository's tests expect. -/
theorem stringify_circuit_constant_potato (c : Circuit) :
    stringify_circuit c = Except.ok ("This is a potato") ∧
    (∀ e, stringify_circuit c ≠ Except.error e) ∧
    stringify_circuit c ≠ Except.ok ("B = !A") ∧
    stringify_circuit c ≠ Except.ok ("C = AB") ∧
    stringify_circuit c ≠ Except.ok ("C = A + B") := by
  refine ⟨rfl, fun e => ?_, ?_, ?_, ?_⟩ <;> simp [stringify_circuit]
